import Mathlib

/-!
Shallow embedding of the rate acquisition, caching and persistence pipeline
of valutatrade_hub (parser_service updater.py, storage.py, api_clients.py,
infra/database.py, core/usecases.py), with theorems settling the claims
about the natural-language specification.

Conventions:
* Python dicts are embedded as association lists in insertion order;
  assignment `d[k] = v` is `alSet` (update in place if the key exists,
  else append), `d.get(k)` is `alGet`.
* Rates (Python floats) are embedded as rationals.
* Python exceptions are the inductive `PyExc`; fallible code returns
  `Except PyExc _`.
-/

/-- Python dict lookup `d.get(k)`. -/
def alGet {α : Type} (m : List (String × α)) (k : String) : Option α :=
  match m with
  | [] => none
  | (k0, v) :: rest => if k0 = k then some v else alGet rest k

/-- Python dict assignment `d[k] = v`: update in place if present, else append. -/
def alSet {α : Type} (m : List (String × α)) (k : String) (v : α) :
    List (String × α) :=
  match m with
  | [] => [(k, v)]
  | (k0, v0) :: rest =>
    if k0 = k then (k0, v) :: rest else (k0, v0) :: alSet rest k v

/-- Remove every binding of a key (used for the file system rename). -/
def alRemove {α : Type} (m : List (String × α)) (k : String) :
    List (String × α) :=
  match m with
  | [] => []
  | (k0, v0) :: rest =>
    if k0 = k then alRemove rest k else (k0, v0) :: alRemove rest k

theorem alGet_alSet_self {α : Type} (m : List (String × α)) (k : String) (v : α) :
    alGet (alSet m k v) k = some v := by
  induction m with
  | nil => simp [alSet, alGet]
  | cons a rest ih =>
    by_cases h : a.1 = k
    · simp [alSet, alGet, h]
    · simp [alSet, alGet, h, ih]

theorem alGet_alSet_ne {α : Type} (m : List (String × α)) (k q : String) (v : α)
    (h : k ≠ q) : alGet (alSet m k v) q = alGet m q := by
  induction m with
  | nil => simp [alSet, alGet, h]
  | cons a rest ih =>
    by_cases h0 : a.1 = k
    · simp [alSet, alGet, h0, h]
    · simp [alSet, alGet, h0, ih]

theorem alGet_alRemove_ne {α : Type} (m : List (String × α)) (k q : String)
    (h : k ≠ q) : alGet (alRemove m k) q = alGet m q := by
  induction m with
  | nil => simp [alRemove]
  | cons a rest ih =>
    by_cases h0 : a.1 = k
    · have hq : a.1 ≠ q := by rw [h0]; exact h
      simp [alRemove, alGet, h0, hq, ih, h]
    · simp [alRemove, alGet, h0, ih]

/-- Python `str.lower()` (character-wise, as used on ASCII codes here). -/
def pyLower (s : String) : String :=
  String.mk (s.data.map Char.toLower)

/-- Python `str.upper()` (character-wise, as used on ASCII codes here). -/
def pyUpper (s : String) : String :=
  String.mk (s.data.map Char.toUpper)

/-- One cached pair as persisted under `rates` in `data/rates.json`
(storage.py `RatesStorage.save_rates`, spec section 6 schema). -/
structure RateEntry where
  rate : Rat
  updated_at : String
  source : String
deriving DecidableEq

/-- One quote as produced by a provider `fetch_rates` (api_clients.py):
the fields of the per-pair dict that the updater and storage consume. -/
structure Quote where
  from_currency : String
  to_currency : String
  rate : Rat
  timestamp : String
  source : String
deriving DecidableEq

/-- One history record: the quote dict plus the derived id
(updater.py line 47 builds the id from the pair key, an underscore and
the quote timestamp). -/
structure HistRecord where
  id : String
  quote : Quote
deriving DecidableEq

/-- The whole rates snapshot document `data/rates.json`
(storage.py `RatesStorage.save_rates`). -/
structure RatesDoc where
  rates : List (String × RateEntry)
  last_refresh : String
deriving DecidableEq

/-- Python exceptions raised by the embedded code. -/
inductive PyExc where
  | typeError (msg : String)
  | valueError (msg : String)
  | currencyNotFoundError (code : String)
  | rateUnavailableError (currency_from currency_to : String)
  | apiRequestError (reason : String)
deriving DecidableEq

/-- Content of one on-disk JSON file owned by the pipeline. -/
inductive FileDoc where
  | rates (d : RatesDoc)
  | hist (l : List HistRecord)
deriving DecidableEq

/-- The file system: path to complete document.  A path absent from the
list is a missing file. -/
abbrev FS := List (String × FileDoc)

/-- Path `ParserConfig.RATES_FILE_PATH` (config.py line 30). -/
def ratesFilePath : String := "data/rates.json"

/-- Path `ParserConfig.HISTORY_FILE_PATH` (config.py line 31). -/
def historyFilePath : String := "data/exchange_rates.json"

/-- A file-system operation: writing a complete document to a path, or
`Path.replace` (atomic rename over the destination). -/
inductive FsOp where
  | write (path : String) (c : FileDoc)
  | rename (src dst : String)
deriving DecidableEq

/-- Effect of one operation on the file system.  `rename` removes the
source and replaces the destination with the source content. -/
def applyFsOp (fs : FS) : FsOp → FS
  | .write p c => alSet fs p c
  | .rename src dst =>
    match alGet fs src with
    | some c => alSet (alRemove fs src) dst c
    | none => fs

def applyFsOps (fs : FS) (ops : List FsOp) : FS :=
  ops.foldl applyFsOp fs

/-- Model of `_atomic_write` (storage.py lines 27-37 and 57-63): dump the whole
document to a fresh temporary file in the same directory, then rename it
over the target path. -/
def atomicWriteOps (tmp target : String) (c : FileDoc) : List FsOp :=
  [FsOp.write tmp c, FsOp.rename tmp target]

/-- History read by `HistoryStorage.append` (storage.py lines 19-21):
the existing array, empty when the file is absent. -/
def existingHistory (fs : FS) : List HistRecord :=
  match alGet fs historyFilePath with
  | some (.hist l) => l
  | _ => []

/-- The operations `RatesStorage.save_rates` performs (storage.py
lines 46-63): wrap the pairs with a fresh `last_refresh` and atomically
write the whole document. -/
def saveRatesOps (tmp : String) (pairs : List (String × RateEntry))
    (now : String) : List FsOp :=
  atomicWriteOps tmp ratesFilePath (.rates ⟨pairs, now⟩)

/-- The operations `HistoryStorage.append` performs (storage.py
lines 15-37): read the existing array, extend, atomically rewrite. -/
def historyAppendOps (tmp : String) (fs : FS) (records : List HistRecord) :
    List FsOp :=
  atomicWriteOps tmp historyFilePath (.hist (existingHistory fs ++ records))

theorem atomicWrite_prefix_keeps_target (fs : FS) (tmp target : String)
    (c : FileDoc) (h : tmp ≠ target) (k : Nat)
    (hk : k < (atomicWriteOps tmp target c).length) :
    alGet (applyFsOps fs ((atomicWriteOps tmp target c).take k)) target =
      alGet fs target := by
  simp only [atomicWriteOps, List.length] at hk
  match k, hk with
  | 0, _ => rfl
  | 1, _ =>
    simp only [atomicWriteOps, List.take, applyFsOps, List.foldl, applyFsOp]
    exact alGet_alSet_ne fs tmp target c h

theorem atomicWrite_final (fs : FS) (tmp target : String) (c : FileDoc) :
    alGet (applyFsOps fs (atomicWriteOps tmp target c)) target = some c := by
  simp only [atomicWriteOps, applyFsOps, List.foldl, applyFsOp]
  rw [alGet_alSet_self]
  exact alGet_alSet_self _ _ _

/-- Claim C8: every persistence of the rate snapshot file and of the
history file writes the full new document to a temporary file and then
renames it over the target; interrupting at any point before the rename
leaves the prior target file untouched, and after the rename the target
is exactly the new complete document. -/
theorem c8_atomic_persistence (fs : FS) (tmp1 tmp2 : String)
    (pairs : List (String × RateEntry)) (now : String)
    (records : List HistRecord)
    (h1 : tmp1 ≠ ratesFilePath) (h2 : tmp2 ≠ historyFilePath) :
    ((∀ k, k < (saveRatesOps tmp1 pairs now).length →
        alGet (applyFsOps fs ((saveRatesOps tmp1 pairs now).take k))
          ratesFilePath = alGet fs ratesFilePath) ∧
      alGet (applyFsOps fs (saveRatesOps tmp1 pairs now)) ratesFilePath =
        some (.rates ⟨pairs, now⟩)) ∧
    ((∀ k, k < (historyAppendOps tmp2 fs records).length →
        alGet (applyFsOps fs ((historyAppendOps tmp2 fs records).take k))
          historyFilePath = alGet fs historyFilePath) ∧
      alGet (applyFsOps fs (historyAppendOps tmp2 fs records))
        historyFilePath = some (.hist (existingHistory fs ++ records))) := by
  refine ⟨⟨?_, ?_⟩, ?_, ?_⟩
  · intro k hk
    exact atomicWrite_prefix_keeps_target fs tmp1 ratesFilePath _ h1 k hk
  · exact atomicWrite_final fs tmp1 ratesFilePath _
  · intro k hk
    exact atomicWrite_prefix_keeps_target fs tmp2 historyFilePath _ h2 k hk
  · exact atomicWrite_final fs tmp2 historyFilePath _

/-- Witness for C8 at a concrete file system, temp names, snapshot and
history record. -/
theorem c8_atomic_persistence_witness :
    alGet (applyFsOps [(ratesFilePath, FileDoc.rates ⟨[], "T0"⟩)]
        (saveRatesOps "data/tmp1" [("BTC_USD", ⟨2, "T1", "CoinGecko"⟩)] "T1"))
      ratesFilePath =
      some (.rates ⟨[("BTC_USD", ⟨2, "T1", "CoinGecko"⟩)], "T1"⟩) := by
  have h := c8_atomic_persistence [(ratesFilePath, FileDoc.rates ⟨[], "T0"⟩)]
    "data/tmp1" "data/tmp2" [("BTC_USD", ⟨2, "T1", "CoinGecko"⟩)] "T1" []
    (by decide) (by decide)
  exact h.1.2

/-- The currency registry after `initialize_currencies` (currencies.py
lines 134-145): the codes `get_currency` accepts. -/
def registryCodes : List String :=
  ["USD", "EUR", "RUB", "IRR", "BTC", "ETH", "SOL"]

/-- Map `ParserConfig.CRYPTO_ID_MAP` (config.py lines 22-26). -/
def cryptoIdMap : List (String × String) :=
  [("BTC", "bitcoin"), ("ETH", "ethereum"), ("SOL", "solana")]

/-- Tuple `ParserConfig.FIAT_CURRENCIES` (config.py line 20). -/
def fiatCurrencies : List String :=
  ["EUR", "RUB", "USD", "IRR", "CNY", "GBP", "KZT"]

/-- Per-code extraction loop of `CoinGeckoClient.fetch_rates`
(api_clients.py lines 67-97) over an already-decoded response body
`data : id -> (vs_currency -> number)`, with `vs` the lower-cased base
and `ts` the timestamp taken per quote.  Faithful points:
* an empty decoded body raises `ApiRequestError` (line 73);
* a missing or empty `rate_info` for an id raises `ApiRequestError`
  (line 76);
* a missing per-currency number makes `float(None)` raise `TypeError`,
  caught at line 96 and re-raised as `ApiRequestError`;
* the numeric value itself is stored via `float(rate)` with no sign or
  zero check: zero and negative rates pass through. -/
def coingecko_collect (data : List (String × List (String × Rat)))
    (vs ts : String) : List (String × String) →
    Except PyExc (List (String × Quote))
  | [] => .ok []
  | (code, name) :: rest =>
    if data = [] then
      .error (.apiRequestError "CoinGecko: API returned an empty page.")
    else
      match alGet data name with
      | none => .error (.apiRequestError ("CoinGecko: no rate for " ++ code))
      | some rate_info =>
        if rate_info = [] then
          .error (.apiRequestError ("CoinGecko: no rate for " ++ code))
        else
          match alGet rate_info vs with
          | none =>
            .error (.apiRequestError
              "CoinGecko: float() argument must not be None")
          | some r =>
            match coingecko_collect data vs ts rest with
            | .error e => .error e
            | .ok tail =>
              .ok ((code ++ "_" ++ pyUpper vs,
                ⟨code, pyUpper vs, r, ts, "CoinGecko"⟩) :: tail)

/-- Model of the `CoinGeckoClient.fetch_rates` parse stage over the whole crypto
universe (the transport stage either succeeds with `data` or has already
raised `ApiRequestError`). -/
def coingecko_fetch_parse (data : List (String × List (String × Rat)))
    (vs ts : String) : Except PyExc (List (String × Quote)) :=
  coingecko_collect data vs ts cryptoIdMap

/-- Per-code extraction loop of `ExchangeRateApiClient.fetch_rates`
(api_clients.py lines 165-185) over the decoded `conversion_rates` map,
with `baseC` the upper-cased base.  Faithful points:
* `rate = rates_data.get(code); if not rate:` rejects a missing rate and
  also a zero rate (Python falsiness), raising `ApiRequestError`;
* any other value, including a negative rate, is stored unchanged. -/
def exchangerate_collect (rates_data : List (String × Rat))
    (baseC ts : String) : List String → Except PyExc (List (String × Quote))
  | [] => .ok []
  | code :: rest =>
    match alGet rates_data code with
    | none =>
      .error (.apiRequestError ("ExchangeRate-API: no rate for " ++ code))
    | some r =>
      if r = 0 then
        .error (.apiRequestError ("ExchangeRate-API: no rate for " ++ code))
      else
        match exchangerate_collect rates_data baseC ts rest with
        | .error e => .error e
        | .ok tail =>
          .ok ((code ++ "_" ++ baseC,
            ⟨code, baseC, r, ts, "ExchangeRate-API"⟩) :: tail)

/-- Model of the `ExchangeRateApiClient.fetch_rates` parse stage over the fiat
universe (the credential, transport, `result` and payload-shape checks
before it have either passed or already raised `ApiRequestError`). -/
def exchangerate_fetch_parse (rates_data : List (String × Rat))
    (baseC ts : String) : Except PyExc (List (String × Quote)) :=
  exchangerate_collect rates_data baseC ts fiatCurrencies

/-- The cache entry the updater builds from one fetched quote
(updater.py lines 49-53). -/
def quoteEntry (q : Quote) : RateEntry :=
  ⟨q.rate, q.timestamp, q.source⟩

/-- The per-provider inner loop of `RatesUpdater.run_update`
(updater.py lines 46-53): append a history record and upsert the cache
snapshot entry for every fetched pair, in response order. -/
def mergeFetched (pairs : List (String × Quote))
    (hr : List HistRecord) (cs : List (String × RateEntry)) :
    List HistRecord × List (String × RateEntry) :=
  match pairs with
  | [] => (hr, cs)
  | (pair, q) :: rest =>
    mergeFetched rest (hr ++ [⟨pair ++ "_" ++ q.timestamp, q⟩])
      (alSet cs pair (quoteEntry q))

/-- The `except` clause of `run_update` (updater.py lines 54-56):
`raise ApiRequestError from e` instantiates `ApiRequestError` with no
arguments, but `ApiRequestError.__init__` (exceptions.py lines 45-48)
requires `reason`, so the re-raise itself fails with `TypeError`. -/
def apiReqCtorExc : PyExc :=
  .typeError "ApiRequestError.__init__ missing 1 required positional argument: reason"

/-- One provider step of the `run_update` loop: a client failure is
re-raised (as `apiReqCtorExc`), a success extends the accumulators. -/
def providerStep (res : Except PyExc (List (String × Quote)))
    (acc : List HistRecord × List (String × RateEntry)) :
    Except PyExc (List HistRecord × List (String × RateEntry)) :=
  match res with
  | .error _ => .error apiReqCtorExc
  | .ok d => .ok (mergeFetched d acc.1 acc.2)

/-- The `if source and name != source: continue` filter of the loop
(updater.py lines 40-41), after `if source: source = source.lower()`
(lines 24-25).  Python truthiness: an empty source string is falsy, so
`source and ...` short-circuits to no filter at all — every client is
queried, exactly as with `source=None`. -/
def skipClient (s : Option String) (name : String) : Bool :=
  match s with
  | some v => if v = "" then false else if v = name then false else true
  | none => false

/-- Writing the history file from `run_update` via `HistoryStorage.append`:
net effect on the file system (the atomic temp-file/rename sequence is
`historyAppendOps`; by `atomicWrite_net_effect` below its net result on a
fresh temp name is exactly this upsert). -/
def histAppendFs (fs : FS) (records : List HistRecord) : FS :=
  alSet fs historyFilePath (.hist (existingHistory fs ++ records))

/-- Writing the rate snapshot file from `run_update` via
`RatesStorage.save_rates`: the document is rebuilt from `pairs` alone
(storage.py lines 50-54) — the prior file content is not read. -/
def saveRatesFs (fs : FS) (pairs : List (String × RateEntry))
    (now : String) : FS :=
  alSet fs ratesFilePath (.rates ⟨pairs, now⟩)

/-- Body of `RatesUpdater.run_update` (updater.py lines 33-66) after
base validation: iterate the client dict in insertion order
(`coingecko` then `exchangerate`), skip non-selected clients, abort on
the first client failure, then persist history and snapshot only when
non-empty.  The provider fetch outcomes are the parameters `cg`/`fx`;
`now` is the `datetime.now` timestamp `save_rates` embeds.  The result
is the raised exception or normal return, paired with the file system
after the call (unchanged whenever an exception is raised, because both
writes happen after the loop). -/
def run_update_loop (cg fx : Except PyExc (List (String × Quote)))
    (s : Option String) (now : String) (fs : FS) :
    Except PyExc Unit × FS :=
  match (if skipClient s "coingecko" then .ok ([], []) else providerStep cg ([], [])) with
  | .error e => (.error e, fs)
  | .ok acc1 =>
    match (if skipClient s "exchangerate" then .ok acc1 else providerStep fx acc1) with
    | .error e => (.error e, fs)
    | .ok (hr, cs) =>
      let fs1 := if hr = [] then fs else histAppendFs fs hr
      let fs2 := if cs = [] then fs1 else saveRatesFs fs1 cs now
      (.ok (), fs2)

/-- Model of `RatesUpdater.run_update` (updater.py lines 23-66):
lower-case the source filter, then `if base:` — only a truthy (non-empty)
base is validated against the currency registry via `get_currency`
(which raises `CurrencyNotFoundError` otherwise); a `None` or empty base
is falsy and silently falls back to the configured default base.  The
validated base only parametrises the client fetches, which are inputs
here.  Then run the provider loop and persistence. -/
def run_update (cg fx : Except PyExc (List (String × Quote)))
    (source base : Option String) (now : String) (fs : FS) :
    Except PyExc Unit × FS :=
  match base with
  | some b =>
    if b = "" then run_update_loop cg fx (source.map pyLower) now fs
    else if pyUpper b ∈ registryCodes then
      run_update_loop cg fx (source.map pyLower) now fs
    else (.error (.currencyNotFoundError (pyUpper b)), fs)
  | none => run_update_loop cg fx (source.map pyLower) now fs

/-- With a fresh temporary name, the atomic write sequence has the same
net effect on the file system as directly replacing the target document
(the form `run_update` uses via `histAppendFs`/`saveRatesFs`). -/
theorem atomicWrite_net_effect (fs : FS) (tmp target : String) (c : FileDoc)
    (hfresh : alGet fs tmp = none) :
    applyFsOps fs (atomicWriteOps tmp target c) = alSet fs target c := by
  simp only [atomicWriteOps, applyFsOps, List.foldl, applyFsOp,
    alGet_alSet_self]
  have hrm : ∀ l : FS, alGet l tmp = none → alRemove (alSet l tmp c) tmp = l := by
    intro l
    induction l with
    | nil => intro _; simp [alSet, alRemove]
    | cons a rest ih =>
      intro hf
      simp only [alGet] at hf
      by_cases h0 : a.1 = tmp
      · simp [h0] at hf
      · rw [if_neg h0] at hf
        simp only [alSet, if_neg h0, alRemove]
        rw [ih hf]
  rw [hrm fs hfresh]

/-- The entry stored under a pair key in the on-disk snapshot, if any. -/
def cachedRate (fs : FS) (key : String) : Option RateEntry :=
  match alGet fs ratesFilePath with
  | some (.rates d) => alGet d.rates key
  | _ => none

/-- A previously fetched fiat pair sitting in the cache. -/
def egFiatEntry : RateEntry := ⟨92 / 100, "T0", "ExchangeRate-API"⟩

/-- A prior file system: the snapshot holds one fiat pair, no history. -/
def egFs : FS := [(ratesFilePath, .rates ⟨[("EUR_USD", egFiatEntry)], "T0"⟩)]

/-- A freshly fetched crypto quote. -/
def egBtcQuote : Quote := ⟨"BTC", "USD", 59337, "T1", "CoinGecko"⟩

theorem pyLower_ne_empty {s : String} (h : s ≠ "") : pyLower s ≠ "" := by
  intro he
  apply h
  have hd : s.data.map Char.toLower = [] := congrArg String.data he
  rw [List.map_eq_nil_iff] at hd
  cases s with
  | mk data =>
    rw [show ("" : String) = String.mk [] from rfl]
    exact congrArg String.mk hd

/-- Counterexample to claim C10: the empty string matches no configured
provider name after lowercasing, yet `run_update(source="")` is not a
no-op — the empty string is falsy, so the loop filter never fires and
both providers are queried exactly as in a full refresh: with the fiat
provider failing the call raises instead of returning normally, and
with both providers succeeding the rate snapshot file is rewritten. -/
theorem c10_counterexample :
    run_update (.ok [("BTC_USD", egBtcQuote)])
        (.error (.apiRequestError "ExchangeRate-API: connection refused"))
        (some "") none "T1" egFs = (.error apiReqCtorExc, egFs) ∧
    cachedRate (run_update (.ok [("BTC_USD", egBtcQuote)]) (.ok [])
        (some "") none "T1" egFs).2 "BTC_USD" = some (quoteEntry egBtcQuote) := by
  refine ⟨rfl, rfl⟩

/-- Claim C10 as amended: for every truthy (non-empty) source argument
that matches no configured provider name after lowercasing, `run_update`
queries no provider (the result does not depend on either provider
outcome), writes neither the rate snapshot nor the history file, and
returns normally; the empty source string, however, is falsy in the
`if source and name != source` filter, so it applies no filter at all —
`run_update(source="")` behaves exactly like `run_update(source=None)`,
a full refresh querying both providers. -/
theorem c10_truthy_unknown_source_noop
    (cg fx : Except PyExc (List (String × Quote)))
    (s : String) (now : String) (fs : FS)
    (hne : s ≠ "") (h1 : pyLower s ≠ "coingecko")
    (h2 : pyLower s ≠ "exchangerate") :
    run_update cg fx (some s) none now fs = (.ok (), fs) ∧
    run_update cg fx (some "") none now fs
      = run_update cg fx none none now fs := by
  constructor
  · simp [run_update, run_update_loop, skipClient, pyLower_ne_empty hne,
      h1, h2]
  · rfl

/-- Witness for C10 (amended): `source = "crypto"` is a silent no-op even
when both providers would fail. -/
theorem c10_truthy_unknown_source_noop_witness :
    run_update (.error (.apiRequestError "CoinGecko: connection refused"))
      (.error (.apiRequestError "ExchangeRate-API: connection refused"))
      (some "crypto") none "T1" egFs = (.ok (), egFs) :=
  (c10_truthy_unknown_source_noop _ _ "crypto" "T1" egFs
    (by decide) (by decide) (by decide)).1

/-- Counterexample to claim C2: the crypto provider succeeds with one
pair and the fiat provider fails, yet `run_update` raises (the mis-built
`ApiRequestError` re-raise) and the file system is untouched — the
pairs of the successful provider are neither merged into the cache nor
appended to history. -/
theorem c2_counterexample :
    run_update (.ok [("BTC_USD", egBtcQuote)])
      (.error (.apiRequestError "ExchangeRate-API: connection refused"))
      none none "T1" egFs = (.error apiReqCtorExc, egFs) := by
  rfl

/-- Claim C2 as amended: a provider failure aborts the whole cycle —
`run_update` re-raises at the first failing client (as a `TypeError`,
since `ApiRequestError` is instantiated without its required `reason`),
clients after it are never consulted, and no pairs at all (not even
those of providers that already succeeded) are merged or appended: both
files are left unchanged. -/
theorem c2_first_failure_aborts (pairs : List (String × Quote))
    (e1 e2 : PyExc) (fx : Except PyExc (List (String × Quote)))
    (now : String) (fs : FS) :
    run_update (.ok pairs) (.error e2) none none now fs
        = (.error apiReqCtorExc, fs) ∧
    run_update (.error e1) fx none none now fs
        = (.error apiReqCtorExc, fs) := by
  constructor <;>
    simp [run_update, run_update_loop, skipClient, providerStep]

/-- Counterexample to claim C3: with both providers failing, the files
are indeed untouched, but the surfaced error is a constant `TypeError`
from the mis-built re-raise — not an aggregated `ApiRequestError` naming
each failed provider and its reason. -/
theorem c3_counterexample :
    run_update (.error (.apiRequestError "CoinGecko: connection refused"))
      (.error (.apiRequestError "ExchangeRate-API: connection refused"))
      none none "T1" egFs = (.error apiReqCtorExc, egFs) ∧
    ¬ ∃ r : String,
      (run_update (.error (.apiRequestError "CoinGecko: connection refused"))
        (.error (.apiRequestError "ExchangeRate-API: connection refused"))
        none none "T1" egFs).1 = .error (.apiRequestError r) := by
  constructor
  · rfl
  · rintro ⟨r, hr⟩
    simp [run_update, run_update_loop, skipClient, providerStep,
      apiReqCtorExc] at hr

/-- Claim C3 as amended: if every selected provider fails, no merge and
no history append occurs — the file system is returned unchanged — and
an error is surfaced to the caller; but it is raised already at the
failure of the first provider (the second provider is never attempted — the
result does not depend on its outcome) and it names no provider: the
handler re-raises `ApiRequestError` without its required `reason`
argument, so the caller receives a `TypeError`. -/
theorem c3_all_fail_unchanged_untyped (e1 e2 : PyExc) (now : String) (fs : FS) :
    run_update (.error e1) (.error e2) none none now fs
      = (.error apiReqCtorExc, fs) := by
  simp [run_update, run_update_loop, skipClient, providerStep]

/-- Claim C1 at its failing input: refreshing with `source = "coingecko"`
only, against a cache that held a fiat pair, succeeds — and the new
snapshot document is rebuilt from the pairs of this cycle alone, so the
previously cached fiat pair is gone: the snapshot is replaced wholesale,
not merged. -/
theorem c1_single_source_replaces_cache :
    (run_update (.ok [("BTC_USD", egBtcQuote)]) (.ok [])
        (some "coingecko") none "T1" egFs).1 = .ok () ∧
    cachedRate egFs "EUR_USD" = some egFiatEntry ∧
    cachedRate (run_update (.ok [("BTC_USD", egBtcQuote)]) (.ok [])
        (some "coingecko") none "T1" egFs).2 "EUR_USD" = none ∧
    cachedRate (run_update (.ok [("BTC_USD", egBtcQuote)]) (.ok [])
        (some "coingecko") none "T1" egFs).2 "BTC_USD"
      = some (quoteEntry egBtcQuote) := by
  refine ⟨rfl, rfl, rfl, rfl⟩

/-- Counterexample to claim C9: a crypto-provider response carrying a
negative rate for BTC is parsed successfully — the fetch does not fail
with a provider error, and the violating quote is in the returned
mapping (which `run_update` would then store). -/
theorem c9_counterexample :
    coingecko_fetch_parse
      [("bitcoin", [("usd", -1)]), ("ethereum", [("usd", 1)]),
        ("solana", [("usd", 1)])] "usd" "T1"
      = .ok [("BTC_USD", ⟨"BTC", "USD", -1, "T1", "CoinGecko"⟩),
          ("ETH_USD", ⟨"ETH", "USD", 1, "T1", "CoinGecko"⟩),
          ("SOL_USD", ⟨"SOL", "USD", 1, "T1", "CoinGecko"⟩)] := by
  rfl

/-- Claim C9 as amended: the providers reject a missing rate (the crypto
client via the `float(None)` `TypeError` re-raised as `ApiRequestError`,
the fiat client via its falsiness check, which also rejects a zero
rate), but neither validates positivity: a negative rate passes through
both clients, and a zero rate passes through the crypto client, ending
up in the returned quotes. -/
theorem c9_no_positivity_check (r : Rat) (ts : String) (hneg : r < 0) :
    (coingecko_fetch_parse
        [("bitcoin", [("usd", r)]), ("ethereum", [("usd", 1)]),
          ("solana", [("usd", 1)])] "usd" ts
      = .ok [("BTC_USD", ⟨"BTC", "USD", r, ts, "CoinGecko"⟩),
          ("ETH_USD", ⟨"ETH", "USD", 1, ts, "CoinGecko"⟩),
          ("SOL_USD", ⟨"SOL", "USD", 1, ts, "CoinGecko"⟩)]) ∧
    (coingecko_fetch_parse
        [("bitcoin", [("usd", 0)]), ("ethereum", [("usd", 1)]),
          ("solana", [("usd", 1)])] "usd" ts
      = .ok [("BTC_USD", ⟨"BTC", "USD", 0, ts, "CoinGecko"⟩),
          ("ETH_USD", ⟨"ETH", "USD", 1, ts, "CoinGecko"⟩),
          ("SOL_USD", ⟨"SOL", "USD", 1, ts, "CoinGecko"⟩)]) ∧
    (coingecko_fetch_parse
        [("bitcoin", []), ("ethereum", [("usd", 1)]),
          ("solana", [("usd", 1)])] "usd" ts
      = .error (.apiRequestError "CoinGecko: no rate for BTC")) ∧
    (exchangerate_fetch_parse
        [("EUR", r), ("RUB", 1), ("USD", 1), ("IRR", 1), ("CNY", 1),
          ("GBP", 1), ("KZT", 1)] "USD" ts
      = .ok [("EUR_USD", ⟨"EUR", "USD", r, ts, "ExchangeRate-API"⟩),
          ("RUB_USD", ⟨"RUB", "USD", 1, ts, "ExchangeRate-API"⟩),
          ("USD_USD", ⟨"USD", "USD", 1, ts, "ExchangeRate-API"⟩),
          ("IRR_USD", ⟨"IRR", "USD", 1, ts, "ExchangeRate-API"⟩),
          ("CNY_USD", ⟨"CNY", "USD", 1, ts, "ExchangeRate-API"⟩),
          ("GBP_USD", ⟨"GBP", "USD", 1, ts, "ExchangeRate-API"⟩),
          ("KZT_USD", ⟨"KZT", "USD", 1, ts, "ExchangeRate-API"⟩)]) ∧
    (exchangerate_fetch_parse
        [("EUR", 0), ("RUB", 1), ("USD", 1), ("IRR", 1), ("CNY", 1),
          ("GBP", 1), ("KZT", 1)] "USD" ts
      = .error (.apiRequestError "ExchangeRate-API: no rate for EUR")) := by
  have hr0 : r ≠ 0 := ne_of_lt hneg
  refine ⟨rfl, rfl, rfl, ?_, ?_⟩
  · simp [exchangerate_fetch_parse, exchangerate_collect, fiatCurrencies,
      alGet, hr0]
  · rfl

/-- Witness for C9 (amended) at `r = -1`. -/
theorem c9_no_positivity_check_witness :
    coingecko_fetch_parse
        [("bitcoin", [("usd", -1)]), ("ethereum", [("usd", 1)]),
          ("solana", [("usd", 1)])] "usd" "T2"
      = .ok [("BTC_USD", ⟨"BTC", "USD", -1, "T2", "CoinGecko"⟩),
          ("ETH_USD", ⟨"ETH", "USD", 1, "T2", "CoinGecko"⟩),
          ("SOL_USD", ⟨"SOL", "USD", 1, "T2", "CoinGecko"⟩)] :=
  (c9_no_positivity_check (-1) "T2" (by norm_num)).1

/-- Model of `DatabaseManager.get_rate` (database.py lines 123-144) over the
snapshot mapping.  The values stored under `rates` are the per-pair
dicts written by `RatesStorage.save_rates` (spec section 6 schema), so:
* a direct hit returns that whole dict (`return rates.get(rate_key_direct)`)
  — embedded as `.ok (some entry)`: the caller receives the dict, not
  the numeric rate;
* a reverse hit computes `1 / rates.get(rate_key_reverse)`, and `1 /`
  applied to a dict raises `TypeError`;
* a miss returns `None` (`.ok none`). -/
def db_get_rate (rates : List (String × RateEntry)) (cfrom cto : String) :
    Except PyExc (Option RateEntry) :=
  let f := pyUpper cfrom
  let t := pyUpper cto
  match alGet rates (f ++ "_" ++ t) with
  | some e => .ok (some e)
  | none =>
    match alGet rates (t ++ "_" ++ f) with
    | some _ =>
      .error (.typeError "unsupported operand types for /: int and dict")
    | none => .ok none

/-- Claim C4 at its failing input: with `BTC_USD` stored as the schema
dict with rate 2, the direct lookup returns the whole dict rather than
the stored rate, and the reverse lookup raises `TypeError` from
`1 / <dict>` instead of returning `1/2` — so
`GetRate(A,B).rate * GetRate(B,A).rate` is never computed at all. -/
theorem c4_lookup_returns_dict_not_rate :
    db_get_rate [("BTC_USD", ⟨2, "T1", "CoinGecko"⟩)] "BTC" "USD"
      = .ok (some ⟨2, "T1", "CoinGecko"⟩) ∧
    db_get_rate [("BTC_USD", ⟨2, "T1", "CoinGecko"⟩)] "USD" "BTC"
      = .error (.typeError "unsupported operand types for /: int and dict") := by
  constructor <;> rfl

/-- Python `str.strip()` restricted to blanks (the only whitespace the
call sites can see). -/
def pyStrip (s : String) : String :=
  String.mk (((s.data.dropWhile (· = ' ')).reverse.dropWhile (· = ' ')).reverse)

/-- The raise from `reversed_pair_rate = 1 / pair_rate` (usecases.py
line 469): `pair_rate` is either `None` (cache miss in both directions)
or the per-pair schema dict (direct hit), and `1 /` raises `TypeError`
on both, so lines 470-499 of `RatesCommands.get_rate` — including the
freshness check, the stale-path refresh and both return statements —
are unreachable whenever the snapshot document is non-empty. -/
def pyOneOver (pr : Option RateEntry) : PyExc :=
  match pr with
  | some _ => .typeError "unsupported operand types for /: int and dict"
  | none => .typeError "unsupported operand types for /: int and NoneType"

/-- Model of `RatesCommands.get_rate` (usecases.py lines 428-499): emptiness
check on the codes, upper-casing, registry validation (`get_currency`
raises `CurrencyNotFoundError`), snapshot load — an empty document is
falsy and the guard raises `RateUnavailableError` with a single
positional argument, which is a `TypeError` since `__init__` requires
`currency_from` and `currency_to` (exceptions.py lines 95-99) — then
`DatabaseManager.get_rate` and the always-raising `1 / pair_rate`. -/
def rc_get_rate (registry : List String) (doc : Option RatesDoc)
    (cfrom cto : String) : Except PyExc Rat :=
  if pyStrip cfrom = "" ∨ pyStrip cto = "" then
    .error (.valueError "currency codes must be non-empty")
  else
    let f := pyUpper cfrom
    let t := pyUpper cto
    if f ∉ registry then .error (.currencyNotFoundError f)
    else if t ∉ registry then .error (.currencyNotFoundError t)
    else
      match doc with
      | none =>
        .error (.typeError
          "RateUnavailableError.__init__ missing 1 required positional argument: currency_to")
      | some d =>
        match db_get_rate d.rates f t with
        | .error e => .error e
        | .ok pr => .error (pyOneOver pr)

/-- Theorem: `RatesCommands.get_rate` can never return a rate: every execution
path past validation raises. -/
theorem rc_get_rate_always_raises (registry : List String)
    (doc : Option RatesDoc) (cfrom cto : String) (r : Rat) :
    rc_get_rate registry doc cfrom cto ≠ .ok r := by
  unfold rc_get_rate
  by_cases h1 : pyStrip cfrom = "" ∨ pyStrip cto = ""
  · simp [h1]
  · rw [if_neg h1]
    dsimp only
    by_cases h2 : pyUpper cfrom ∉ registry
    · rw [if_pos h2]; simp
    · rw [if_neg h2]
      by_cases h3 : pyUpper cto ∉ registry
      · rw [if_pos h3]; simp
      · rw [if_neg h3]
        cases doc with
    | none => simp
    | some d =>
      cases hdb : db_get_rate d.rates (pyUpper cfrom) (pyUpper cto) with
      | error e => simp [hdb]
      | ok pr => simp [hdb]

/-- Claim C5 at its failing input: both codes are registry-known, the
cache is non-empty but holds the pair in neither direction, and
`get_rate` raises the untyped `TypeError` from `1 / None` — not
`RateUnavailable(from, to)` (the refresh retry is never reached). -/
theorem c5_missing_pair_raises_typeerror :
    rc_get_rate registryCodes (some ⟨[("EUR_USD", egFiatEntry)], "T0"⟩)
        "BTC" "RUB"
      = .error (.typeError "unsupported operand types for /: int and NoneType") ∧
    rc_get_rate registryCodes (some ⟨[("EUR_USD", egFiatEntry)], "T0"⟩)
        "BTC" "RUB"
      ≠ .error (.rateUnavailableError "BTC" "RUB") := by
  refine ⟨rfl, fun h => ?_⟩
  rw [show rc_get_rate registryCodes
      (some ⟨[("EUR_USD", egFiatEntry)], "T0"⟩) "BTC" "RUB"
      = Except.error (PyExc.typeError
        "unsupported operand types for /: int and NoneType") from rfl] at h
  simp at h

/-- Claim C6 at its failing input: with `BTC_USD` cached, `get_rate`
raises `TypeError` from `1 / <dict>` (usecases.py line 469) before the
freshness comparison on line 473 is ever evaluated — the cached rate is
never returned and the TTL logic is unreachable, for fresh and stale
snapshots alike. -/
theorem c6_cached_pair_raises_before_ttl :
    rc_get_rate registryCodes
        (some ⟨[("BTC_USD", ⟨2, "T1", "CoinGecko"⟩)], "T1"⟩) "BTC" "USD"
      = .error (.typeError "unsupported operand types for /: int and dict") := by
  rfl

/-- Insertion step of `sorted(crypto_rates, key=lambda x: x[1],
reverse=True)` (usecases.py lines 588-592): stable descending order on
the rate — on equal rates the earlier element stays first. -/
def pyInsertDesc (x : String × Rat) : List (String × Rat) →
    List (String × Rat)
  | [] => [x]
  | y :: ys => if y.2 ≤ x.2 then x :: y :: ys else y :: pyInsertDesc x ys

/-- Python `sorted(..., key=rate, reverse=True)`: stable descending sort. -/
def pySortedDesc : List (String × Rat) → List (String × Rat)
  | [] => []
  | x :: xs => pyInsertDesc x (pySortedDesc xs)

/-- The ranking the specification demands of `GetTopN`: rate descending,
ties broken by currency code ascending. -/
def rankRel (a b : String × Rat) : Prop :=
  b.2 < a.2 ∨ (a.2 = b.2 ∧ a.1 < b.1)

theorem rankRel_of_le {a b : String × Rat} (h : b.2 ≤ a.2)
    (hc : a.1 < b.1) : rankRel a b :=
  (lt_or_eq_of_le h).elim Or.inl (fun he => Or.inr ⟨he.symm, hc⟩)

theorem pyInsertDesc_perm (x : String × Rat) (l : List (String × Rat)) :
    List.Perm (pyInsertDesc x l) (x :: l) := by
  induction l with
  | nil => simp [pyInsertDesc]
  | cons y ys ih =>
    by_cases h : y.2 ≤ x.2
    · simp [pyInsertDesc, h]
    · simp only [pyInsertDesc, if_neg h]
      exact ((ih.cons y).trans (List.Perm.swap x y ys))

theorem pySortedDesc_perm (l : List (String × Rat)) :
    List.Perm (pySortedDesc l) l := by
  induction l with
  | nil => simp [pySortedDesc]
  | cons x xs ih =>
    exact (pyInsertDesc_perm x (pySortedDesc xs)).trans (ih.cons x)

theorem pairwiseThree {a b c : String × Rat} (hab : rankRel a b)
    (hac : rankRel a c) (hbc : rankRel b c) :
    List.Pairwise rankRel [a, b, c] := by
  refine List.Pairwise.cons ?_ (List.Pairwise.cons ?_ ?_)
  · intro y hy
    rw [List.mem_cons, List.mem_singleton] at hy
    rcases hy with h | h
    · exact h ▸ hab
    · exact h ▸ hac
  · intro y hy
    rw [List.mem_singleton] at hy
    exact hy ▸ hbc
  · exact List.pairwise_singleton _ _

theorem codeBE : ("BTC" : String) < "ETH" := by
  rw [String.lt_iff_toList_lt]; decide

theorem codeBS : ("BTC" : String) < "SOL" := by
  rw [String.lt_iff_toList_lt]; decide

theorem codeES : ("ETH" : String) < "SOL" := by
  rw [String.lt_iff_toList_lt]; decide

/-- The stable descending sort of the three crypto pairs (whose codes
are listed ascending in the config map) is ranked: rate descending with
ties broken by code ascending, for every assignment of rates. -/
theorem pySortedDesc_three_ranked (r1 r2 r3 : Rat) :
    List.Pairwise rankRel
      (pySortedDesc [("BTC", r1), ("ETH", r2), ("SOL", r3)]) := by
  by_cases h1 : r3 ≤ r2 <;> by_cases h2 : r2 ≤ r1 <;>
    by_cases h3 : r3 ≤ r1 <;>
    simp only [pySortedDesc, pyInsertDesc, h1, h2, h3, if_true, if_false]
  · exact pairwiseThree (rankRel_of_le h2 codeBE)
      (rankRel_of_le h3 codeBS) (rankRel_of_le h1 codeES)
  · exact absurd (le_trans h1 h2) h3
  · exact pairwiseThree (Or.inl (lt_of_not_le h2))
      (rankRel_of_le h1 codeES) (rankRel_of_le h3 codeBS)
  · exact pairwiseThree (rankRel_of_le h1 codeES)
      (Or.inl (lt_of_not_le h2)) (Or.inl (lt_of_not_le h3))
  · exact pairwiseThree (rankRel_of_le h3 codeBS)
      (rankRel_of_le h2 codeBE) (Or.inl (lt_of_not_le h1))
  · exact pairwiseThree (Or.inl (lt_of_not_le h3))
      (Or.inl (lt_of_not_le h1)) (rankRel_of_le h2 codeBE)
  · exact pairwiseThree (rankRel_of_le h3 codeBS)
      (Or.inl (lt_of_lt_of_le (lt_of_not_le h1) h3))
      (Or.inl (lt_of_not_le h1))
  · exact pairwiseThree (Or.inl (lt_of_not_le h1))
      (Or.inl (lt_of_not_le h3)) (Or.inl (lt_of_not_le h2))

/-- The per-code loop of the `top` branch of `RatesCommands.show_rates`
(usecases.py lines 559-581).  Faithful points:
* `pair_rate = rates.get(pair)` is `None` on a miss; the raise for a
  miss passes `extra_info=` to `RateUnavailableError`, whose `__init__`
  (exceptions.py lines 95-99) has no such parameter, so the raise itself
  is a `TypeError`;
* a present entry is a non-empty schema dict, hence truthy, so
  `if not pair_rate` only fires on the miss;
* the extracted rate field is then subject to a falsiness check
  (usecases.py line 576) which rejects a zero rate with a (correctly
  constructed) `RateUnavailableError`. -/
def collectCryptoRates (rates : List (String × RateEntry)) (base : String) :
    List String → Except PyExc (List (String × Rat))
  | [] => .ok []
  | code :: rest =>
    match alGet rates (code ++ "_" ++ base) with
    | none =>
      .error (.typeError
        "RateUnavailableError.__init__ got an unexpected keyword argument extra_info")
    | some entry =>
      if entry.rate = 0 then .error (.rateUnavailableError code base)
      else
        match collectCryptoRates rates base rest with
        | .error e => .error e
        | .ok tail => .ok ((code, entry.rate) :: tail)

/-- The `top` branch of `RatesCommands.show_rates` (usecases.py
lines 501-599, with `currency=None`): argument checks, snapshot load
(an empty document is falsy and the `RateUnavailableError(extra_info=...)`
raise is a `TypeError`), the per-code collection over the crypto
universe (`CRYPTO_ID_MAP` keys), the
`if top > len(crypto_rates)` guard (again a mis-keyworded raise, hence
`TypeError`), and finally `sorted(..., key=rate, reverse=True)[:top]`.
The embedded result is the ranked pair list that the formatted output
enumerates in order.  The function is a pure read of the snapshot: the
source performs no refresh in this path. -/
def show_rates_top (doc : Option RatesDoc) (top : Int) (base : String) :
    Except PyExc (List (String × Rat)) :=
  if top = 0 then
    .error (.valueError "either currency or top must be given")
  else if top < 0 then
    .error (.valueError "the number of cryptocurrencies must be positive")
  else
    match doc with
    | none =>
      .error (.typeError
        "RateUnavailableError.__init__ got an unexpected keyword argument extra_info")
    | some d =>
      match collectCryptoRates d.rates base (cryptoIdMap.map Prod.fst) with
      | .error e => .error e
      | .ok cr =>
        if (cr.length : Int) < top then
          .error (.typeError
            "RateUnavailableError.__init__ got an unexpected keyword argument extra_info")
        else .ok ((pySortedDesc cr).take top.toNat)

theorem collectCryptoRates_err_of_missing (rates : List (String × RateEntry))
    (h : alGet rates "BTC_USD" = none ∨ alGet rates "ETH_USD" = none ∨
      alGet rates "SOL_USD" = none) :
    ∃ e, collectCryptoRates rates "USD" (cryptoIdMap.map Prod.fst)
      = .error e := by
  have kB : ("BTC" ++ "_" ++ "USD" : String) = "BTC_USD" := rfl
  have kE : ("ETH" ++ "_" ++ "USD" : String) = "ETH_USD" := rfl
  have kS : ("SOL" ++ "_" ++ "USD" : String) = "SOL_USD" := rfl
  simp only [cryptoIdMap, List.map_cons, List.map_nil, collectCryptoRates,
    kB, kE, kS]
  rcases h with h | h | h
  · rw [h]
    exact ⟨_, rfl⟩
  · cases hB : alGet rates "BTC_USD" with
    | none => exact ⟨_, rfl⟩
    | some eB =>
      dsimp only
      by_cases h0 : eB.rate = 0
      · exact ⟨_, by rw [if_pos h0]⟩
      · rw [if_neg h0, h]
        exact ⟨_, rfl⟩
  · cases hB : alGet rates "BTC_USD" with
    | none => exact ⟨_, rfl⟩
    | some eB =>
      dsimp only
      by_cases h0 : eB.rate = 0
      · exact ⟨_, by rw [if_pos h0]⟩
      · rw [if_neg h0]
        cases hE : alGet rates "ETH_USD" with
        | none => exact ⟨_, rfl⟩
        | some eE =>
          dsimp only
          by_cases h1 : eE.rate = 0
          · exact ⟨_, by rw [if_pos h1]⟩
          · rw [if_neg h1, h]
            exact ⟨_, rfl⟩

/-- Claim C7: `GetTopN(base, n)` (the `top` branch of `show_rates`) is a
pure read of the current snapshot; with all three crypto-universe pairs
against USD cached with positive rates and `1 ≤ n ≤ 3` it returns the
first `n` elements of the stable descending sort of the universe rates —
a ranked list (rate descending, ties broken by currency code ascending)
of length `n` drawn from the universe; it fails when `n` exceeds the
universe size, and it fails when any required pair is missing from the
cache. -/
theorem c7_get_top_n (d : RatesDoc) (e1 e2 e3 : RateEntry) (top : Int)
    (hB : alGet d.rates "BTC_USD" = some e1)
    (hE : alGet d.rates "ETH_USD" = some e2)
    (hS : alGet d.rates "SOL_USD" = some e3)
    (h1 : 0 < e1.rate) (h2 : 0 < e2.rate) (h3 : 0 < e3.rate) :
    (1 ≤ top → top ≤ 3 →
      show_rates_top (some d) top "USD"
        = .ok ((pySortedDesc
            [("BTC", e1.rate), ("ETH", e2.rate), ("SOL", e3.rate)]).take
              top.toNat) ∧
      List.Pairwise rankRel
        ((pySortedDesc
          [("BTC", e1.rate), ("ETH", e2.rate), ("SOL", e3.rate)]).take
            top.toNat) ∧
      ((pySortedDesc
          [("BTC", e1.rate), ("ETH", e2.rate), ("SOL", e3.rate)]).take
            top.toNat).length = top.toNat ∧
      (∀ p ∈ (pySortedDesc
          [("BTC", e1.rate), ("ETH", e2.rate), ("SOL", e3.rate)]).take
            top.toNat,
        p ∈ [("BTC", e1.rate), ("ETH", e2.rate), ("SOL", e3.rate)])) ∧
    (3 < top → ∃ exc, show_rates_top (some d) top "USD" = .error exc) ∧
    (∀ d0 : RatesDoc,
      (alGet d0.rates "BTC_USD" = none ∨ alGet d0.rates "ETH_USD" = none ∨
        alGet d0.rates "SOL_USD" = none) →
      ∃ exc, show_rates_top (some d0) top "USD" = .error exc) := by
  have kB : ("BTC" ++ "_" ++ "USD" : String) = "BTC_USD" := rfl
  have kE : ("ETH" ++ "_" ++ "USD" : String) = "ETH_USD" := rfl
  have kS : ("SOL" ++ "_" ++ "USD" : String) = "SOL_USD" := rfl
  have hcol : collectCryptoRates d.rates "USD" (cryptoIdMap.map Prod.fst)
      = .ok [("BTC", e1.rate), ("ETH", e2.rate), ("SOL", e3.rate)] := by
    simp only [cryptoIdMap, List.map_cons, List.map_nil, collectCryptoRates,
      kB, kE, kS, hB, hE, hS]
    rw [if_neg h1.ne', if_neg h2.ne', if_neg h3.ne']
  refine ⟨?_, ?_, ?_⟩
  · intro hlo hhi
    have hnz : ¬(top = 0) := by omega
    have hng : ¬(top < 0) := by omega
    have hlen : ¬((([("BTC", e1.rate), ("ETH", e2.rate),
        ("SOL", e3.rate)] : List (String × Rat)).length : Int) < top) := by
      simp only [List.length_cons, List.length_nil]
      omega
    refine ⟨?_, ?_, ?_, ?_⟩
    · simp only [show_rates_top, if_neg hnz, if_neg hng, hcol, if_neg hlen]
    · exact (pySortedDesc_three_ranked e1.rate e2.rate e3.rate).sublist
        (List.take_sublist _ _)
    · rw [List.length_take,
        (pySortedDesc_perm
          [("BTC", e1.rate), ("ETH", e2.rate), ("SOL", e3.rate)]).length_eq]
      simp only [List.length_cons, List.length_nil]
      omega
    · intro p hp
      exact (pySortedDesc_perm _).subset (List.take_subset _ _ hp)
  · intro hgt
    have hnz : ¬(top = 0) := by omega
    have hng : ¬(top < 0) := by omega
    have hlen : ((([("BTC", e1.rate), ("ETH", e2.rate),
        ("SOL", e3.rate)] : List (String × Rat)).length : Int) < top) := by
      simp only [List.length_cons, List.length_nil]
      omega
    exact ⟨.typeError
        "RateUnavailableError.__init__ got an unexpected keyword argument extra_info",
      by simp only [show_rates_top, if_neg hnz, if_neg hng, hcol, if_pos hlen]⟩
  · intro d0 hmiss
    by_cases hnz : top = 0
    · exact ⟨.valueError "either currency or top must be given",
        by simp only [show_rates_top, if_pos hnz]⟩
    · by_cases hng : top < 0
      · exact ⟨.valueError "the number of cryptocurrencies must be positive",
          by simp only [show_rates_top, if_neg hnz, if_pos hng]⟩
      · obtain ⟨e, he⟩ := collectCryptoRates_err_of_missing d0.rates hmiss
        exact ⟨e, by simp only [show_rates_top, if_neg hnz, if_neg hng, he]⟩

/-- Example snapshot from the specification: BTC 59337.21, ETH 3720.00,
SOL 150.00 against USD. -/
def egTopDoc : RatesDoc :=
  ⟨[("BTC_USD", ⟨59337.21, "T1", "CoinGecko"⟩),
    ("ETH_USD", ⟨3720, "T1", "CoinGecko"⟩),
    ("SOL_USD", ⟨150, "T1", "CoinGecko"⟩)], "T1"⟩

/-- Witness for C7: GetTopN of USD and 2 over the example rates of the
specification returns BTC then ETH in that order. -/
theorem c7_get_top_n_witness :
    show_rates_top (some egTopDoc) 2 "USD"
      = .ok [("BTC", (59337.21 : Rat)), ("ETH", (3720 : Rat))] := by
  have h := (c7_get_top_n egTopDoc ⟨59337.21, "T1", "CoinGecko"⟩
    ⟨3720, "T1", "CoinGecko"⟩ ⟨150, "T1", "CoinGecko"⟩ 2 rfl rfl rfl
    (by norm_num) (by norm_num) (by norm_num)).1 (by norm_num) (by norm_num)
  rw [h.1]
  norm_num [pySortedDesc, pyInsertDesc]
  rfl
